import Mathlib

/-!
Shallow embedding of the two ReadyTraderGo auto-trader variants:
`src/autotrader_ac_3.py` (variant 1, namespace `AC3`) and
`src/autotrader_ac_4.py` (variant 2, namespace `AC4`).

Each Python event handler becomes a pure function from a trader state (the
mutable fields of the `AutoTrader` object) and the message arguments to a new
state together with the list of outbound commands it emits.  Python `//` is
floor division, embedded as `Int.fdiv`; Python sets become `Finset ℕ`;
`itertools.count(1)` becomes the `nextOrderId` field, starting at 1.
Only `ask_prices[0]` and `bid_prices[0]` of a book-update message are ever
read by the source, so book events carry just those two best prices.
-/

namespace ReadyTraderGo

/-- Order side, from the `ready_trader_go` `Side` enum (`Side.BID`/`Side.ASK`). -/
inductive Side where
  | bid
  | ask
deriving DecidableEq, Repr

/-- Order lifespan, from the `ready_trader_go` `Lifespan` enum. -/
inductive Lifespan where
  | goodForDay
  | fillAndKill
deriving DecidableEq, Repr

/-- Instrument, from the `ready_trader_go` `Instrument` enum. -/
inductive Instrument where
  | future
  | etf
deriving DecidableEq, Repr

def LOT_SIZE : Int := 10

def POSITION_LIMIT : Int := 100

def TICK_SIZE_IN_CENTS : Int := 100

/-- Modelled from the spec: `MINIMUM_BID` is a constant of the external
`ready_trader_go` library (not under `src/`): the least valid bid price. -/
def MINIMUM_BID : Int := 1

/-- Modelled from the spec: `MAXIMUM_ASK` is a constant of the external
`ready_trader_go` library (not under `src/`): the greatest valid ask price. -/
def MAXIMUM_ASK : Int := 2147483647

def MIN_BID_NEAREST_TICK : Int :=
  (MINIMUM_BID + TICK_SIZE_IN_CENTS).fdiv TICK_SIZE_IN_CENTS * TICK_SIZE_IN_CENTS

def MAX_ASK_NEAREST_TICK : Int :=
  MAXIMUM_ASK.fdiv TICK_SIZE_IN_CENTS * TICK_SIZE_IN_CENTS

/-- Outbound commands of the `BaseAutoTrader` interface. -/
inductive Command where
  | insertOrder (client_order_id : ℕ) (side : Side) (price : Int) (volume : Int)
      (lifespan : Lifespan)
  | cancelOrder (client_order_id : ℕ)
  | hedgeOrder (client_order_id : ℕ) (side : Side) (price : Int) (volume : Int)
  | amendOrder (client_order_id : ℕ) (volume : Int)
deriving DecidableEq, Repr

/-- Inbound events consumed by the handlers.  A book update only carries the
best (index-0) prices, the only entries the source reads. -/
inductive Event where
  | orderBook (instrument : Instrument) (ask_price_0 bid_price_0 : Int)
  | orderFilled (client_order_id : ℕ) (price volume : Int)
  | orderStatus (client_order_id : ℕ) (fill_volume remaining_volume fees : Int)
  | errorMessage (client_order_id : ℕ)
  | tradeTicks
  | hedgeFilled (client_order_id : ℕ) (price volume : Int)
deriving DecidableEq, Repr

namespace AC3

/-- Mutable fields of `autotrader_ac_3.AutoTrader`. -/
structure State where
  nextOrderId : ℕ := 1
  bids : Finset ℕ := ∅
  asks : Finset ℕ := ∅
  askId : ℕ := 0
  bidId : ℕ := 0
  position : Int := 0
  bid_price_history_of_etf : List Int := []
  ask_price_history_of_etf : List Int := []
  bid_price_history_of_future : List Int := []
  ask_price_history_of_future : List Int := []
deriving DecidableEq

/-- The freshly constructed trader (`__init__`). -/
def initialState : State := {}

/-- `on_order_filled_message` (lines 57-70): a fill of a tracked bid raises
`position` and hedges with an aggressive sell; a tracked ask symmetrically. -/
def on_order_filled_message (s : State) (client_order_id : ℕ) (price volume : Int) :
    State × List Command :=
  let _ := price
  if client_order_id ∈ s.bids then
    ({ s with position := s.position + volume, nextOrderId := s.nextOrderId + 1 },
     [Command.hedgeOrder s.nextOrderId Side.ask MIN_BID_NEAREST_TICK volume])
  else if client_order_id ∈ s.asks then
    ({ s with position := s.position - volume, nextOrderId := s.nextOrderId + 1 },
     [Command.hedgeOrder s.nextOrderId Side.bid MAX_ASK_NEAREST_TICK volume])
  else (s, [])

/-- `on_order_status_message` (lines 72-92): a terminal status
(`remaining_volume == 0`) clears the matching slot and discards the id from
both side-sets; otherwise nothing changes. -/
def on_order_status_message (s : State) (client_order_id : ℕ)
    (fill_volume remaining_volume fees : Int) : State :=
  let _ := fill_volume
  let _ := fees
  if remaining_volume = 0 then
    let s1 :=
      if client_order_id = s.bidId then { s with bidId := 0 }
      else if client_order_id = s.askId then { s with askId := 0 }
      else s
    { s1 with
      bids := s1.bids.erase client_order_id,
      asks := s1.asks.erase client_order_id }
  else s

/-- `on_error_message` (lines 38-46): a nonzero id held in a side-set is
treated as `on_order_status_message(id, 0, 0, 0)`; anything else is only
logged. -/
def on_error_message (s : State) (client_order_id : ℕ) : State :=
  if client_order_id ≠ 0 ∧ (client_order_id ∈ s.bids ∨ client_order_id ∈ s.asks) then
    on_order_status_message s client_order_id 0 0 0
  else s

/-- The sell-side volume chain of lines 146-154.  The four guards are
exhaustive (see `sell_volume_eq`), so the final `0` default is unreachable;
Python would raise `NameError` there, which never happens. -/
def sell_volume (position multiplier : Int) : Int :=
  if position ≥ 0 ∧ position - LOT_SIZE * multiplier ≥ -100 then LOT_SIZE * multiplier
  else if position ≥ 0 ∧ position - LOT_SIZE * multiplier ≤ -100 then 100 + position
  else if ¬position ≥ 0 ∧ position - LOT_SIZE * multiplier ≥ -100 then LOT_SIZE * multiplier
  else if ¬position ≥ 0 ∧ position - LOT_SIZE * multiplier ≤ -100 then 100 + position
  else 0

/-- The buy-side volume chain of lines 172-180.  Its value is dead: line 183
overwrites `volume` unconditionally (see `buy_volume`). -/
def buy_volume_chain (position multiplier : Int) : Int :=
  if position ≥ 0 ∧ position + LOT_SIZE * multiplier ≤ 100 then LOT_SIZE * multiplier
  else if position ≥ 0 ∧ position + LOT_SIZE * multiplier > 100 then 100 - position
  else if ¬position ≥ 0 ∧ position + LOT_SIZE * multiplier ≤ 100 then LOT_SIZE * multiplier
  else if ¬position ≥ 0 ∧ position + LOT_SIZE * multiplier ≥ 100 then 100 - position
  else 0

/-- Line 183: the conditional expression that actually determines the buy
volume. -/
def buy_volume (position multiplier : Int) : Int :=
  if LOT_SIZE * multiplier + position ≤ 100 then LOT_SIZE * multiplier
  else 100 - position

/-- Lines 116-123: append the event's best prices to the matching
instrument's histories. -/
def update_history (s : State) (instrument : Instrument) (ask_price_0 bid_price_0 : Int) :
    State :=
  let s :=
    if instrument = Instrument.etf then
      { s with
        bid_price_history_of_etf := s.bid_price_history_of_etf ++ [bid_price_0],
        ask_price_history_of_etf := s.ask_price_history_of_etf ++ [ask_price_0] }
    else s
  if instrument = Instrument.future then
    { s with
      bid_price_history_of_future := s.bid_price_history_of_future ++ [bid_price_0],
      ask_price_history_of_future := s.ask_price_history_of_future ++ [ask_price_0] }
  else s

/-- Lines 135-159: the sell branch.  Runs only when the ETF midpoint exceeds
the future midpoint and the event is for the ETF. -/
def sell_branch (s : State) (instrument : Instrument) (ask_price_0 : Int)
    (midpoint_price_of_etf midpoint_price_of_future multiplier : Int) :
    State × List Command :=
  if midpoint_price_of_etf > midpoint_price_of_future ∧ instrument = Instrument.etf then
    let p := if s.askId ≠ 0 then ({ s with askId := 0 }, [Command.cancelOrder s.askId])
             else (s, [])
    let s := p.1
    if s.askId = 0 ∧ s.position > -POSITION_LIMIT + LOT_SIZE then
      let volume := sell_volume s.position multiplier
      ({ s with
          askId := s.nextOrderId,
          nextOrderId := s.nextOrderId + 1,
          asks := insert s.nextOrderId s.asks },
       p.2 ++ [Command.insertOrder s.nextOrderId Side.ask ask_price_0 volume
                Lifespan.goodForDay])
    else (s, p.2)
  else (s, [])

/-- Lines 161-186: the buy branch.  Runs only when the ETF midpoint is below
the future midpoint and the event is for the ETF. -/
def buy_branch (s : State) (instrument : Instrument) (bid_price_0 : Int)
    (midpoint_price_of_etf midpoint_price_of_future multiplier : Int) :
    State × List Command :=
  if midpoint_price_of_etf < midpoint_price_of_future ∧ instrument = Instrument.etf then
    let p := if s.bidId ≠ 0 then ({ s with bidId := 0 }, [Command.cancelOrder s.bidId])
             else (s, [])
    let s := p.1
    if s.bidId = 0 ∧ s.position < POSITION_LIMIT - LOT_SIZE then
      let volume := buy_volume_chain s.position multiplier
      let volume := buy_volume s.position multiplier
      ({ s with
          bidId := s.nextOrderId,
          nextOrderId := s.nextOrderId + 1,
          bids := insert s.nextOrderId s.bids },
       p.2 ++ [Command.insertOrder s.nextOrderId Side.bid bid_price_0 volume
                Lifespan.goodForDay])
    else (s, p.2)
  else (s, [])

/-- Lines 127-186: the calculations and order execution that run once the two
histories have equal length.  The `getLastD 0` accesses embed Python's `[-1]`;
under the equal-length guard both histories are nonempty, so the `0` default
is never used. -/
def quote_decision (s : State) (instrument : Instrument)
    (ask_price_0 bid_price_0 : Int) : State × List Command :=
  let midpoint_price_of_etf :=
    (s.bid_price_history_of_etf.getLastD 0 + s.ask_price_history_of_etf.getLastD 0).fdiv 2
  let midpoint_price_of_future :=
    (s.bid_price_history_of_future.getLastD 0 +
      s.ask_price_history_of_future.getLastD 0).fdiv 2
  let multiplier :=
    |midpoint_price_of_etf - midpoint_price_of_future|.fdiv TICK_SIZE_IN_CENTS + 1
  let ps := sell_branch s instrument ask_price_0
    midpoint_price_of_etf midpoint_price_of_future multiplier
  let pb := buy_branch ps.1 instrument bid_price_0
    midpoint_price_of_etf midpoint_price_of_future multiplier
  (pb.1, ps.2 ++ pb.2)

/-- `on_order_book_update_message` (lines 106-186). -/
def on_order_book_update_message (s : State) (instrument : Instrument)
    (ask_price_0 bid_price_0 : Int) : State × List Command :=
  let t := update_history s instrument ask_price_0 bid_price_0
  if t.bid_price_history_of_etf.length = t.bid_price_history_of_future.length then
    quote_decision t instrument ask_price_0 bid_price_0
  else (t, [])

/-- Serial delivery of one inbound event (trade ticks and hedge fills are
logged only). -/
def step (s : State) (e : Event) : State × List Command :=
  match e with
  | Event.orderBook instrument a b => on_order_book_update_message s instrument a b
  | Event.orderFilled id p v => on_order_filled_message s id p v
  | Event.orderStatus id f r fees => (on_order_status_message s id f r fees, [])
  | Event.errorMessage id => (on_error_message s id, [])
  | Event.tradeTicks => (s, [])
  | Event.hedgeFilled _ _ _ => (s, [])

/-- State reached after serially handling a list of inbound events. -/
def run (s : State) (es : List Event) : State :=
  es.foldl (fun t e => (step t e).1) s

end AC3

namespace AC4

/-- Mutable fields of `autotrader_ac_4.AutoTrader`; variant 2 adds the
`position_orders` counter. -/
structure State where
  nextOrderId : ℕ := 1
  bids : Finset ℕ := ∅
  asks : Finset ℕ := ∅
  askId : ℕ := 0
  bidId : ℕ := 0
  position : Int := 0
  bid_price_history_of_etf : List Int := []
  ask_price_history_of_etf : List Int := []
  bid_price_history_of_future : List Int := []
  ask_price_history_of_future : List Int := []
  position_orders : Int := 0
deriving DecidableEq

/-- The freshly constructed trader (`__init__`). -/
def initialState : State := {}

/-- Result of a handler that can raise: `raised` keeps the state as mutated
before the exception propagated. -/
inductive StepResult where
  | ok (s : State) (cmds : List Command)
  | raised (s : State) (msg : String)
deriving DecidableEq

/-- The state carried by a `StepResult`, whether or not it raised. -/
def StepResult.state : StepResult → State
  | StepResult.ok s _ => s
  | StepResult.raised s _ => s

/-- The commands emitted by a `StepResult` (none once an exception has
propagated). -/
def StepResult.cmds : StepResult → List Command
  | StepResult.ok _ c => c
  | StepResult.raised _ _ => []

/-- Whether the handler raised. -/
def StepResult.isRaised : StepResult → Bool
  | StepResult.ok _ _ => false
  | StepResult.raised _ _ => true

/-- The exception text, empty when none was raised. -/
def StepResult.raisedMsg : StepResult → String
  | StepResult.ok _ _ => ""
  | StepResult.raised _ m => m

/-- `on_order_filled_message` (lines 58-73): as variant 1, and additionally
moves the filled volume out of `position_orders`. -/
def on_order_filled_message (s : State) (client_order_id : ℕ) (price volume : Int) :
    State × List Command :=
  let _ := price
  if client_order_id ∈ s.bids then
    ({ s with
        position := s.position + volume,
        position_orders := s.position_orders - volume,
        nextOrderId := s.nextOrderId + 1 },
     [Command.hedgeOrder s.nextOrderId Side.ask MIN_BID_NEAREST_TICK volume])
  else if client_order_id ∈ s.asks then
    ({ s with
        position := s.position - volume,
        position_orders := s.position_orders + volume,
        nextOrderId := s.nextOrderId + 1 },
     [Command.hedgeOrder s.nextOrderId Side.bid MAX_ASK_NEAREST_TICK volume])
  else (s, [])

/-- `on_order_status_message` (lines 75-101): first adjusts
`position_orders` by the cumulative `fill_volume` whenever the id matches a
slot (lines 88-91), then clears slot and side-sets on a terminal status. -/
def on_order_status_message (s : State) (client_order_id : ℕ)
    (fill_volume remaining_volume fees : Int) : State :=
  let _ := fees
  let s :=
    if client_order_id = s.bidId then
      { s with position_orders := s.position_orders - fill_volume }
    else if client_order_id = s.askId then
      { s with position_orders := s.position_orders + fill_volume }
    else s
  if remaining_volume = 0 then
    let s1 :=
      if client_order_id = s.bidId then { s with bidId := 0 }
      else if client_order_id = s.askId then { s with askId := 0 }
      else s
    { s1 with
      bids := s1.bids.erase client_order_id,
      asks := s1.asks.erase client_order_id }
  else s

/-- `on_error_message` (lines 39-47). -/
def on_error_message (s : State) (client_order_id : ℕ) : State :=
  if client_order_id ≠ 0 ∧ (client_order_id ∈ s.bids ∨ client_order_id ∈ s.asks) then
    on_order_status_message s client_order_id 0 0 0
  else s

/-- Lines 129-136: append the event's best prices to the matching
instrument's histories (same as variant 1). -/
def update_history (s : State) (instrument : Instrument) (ask_price_0 bid_price_0 : Int) :
    State :=
  let s :=
    if instrument = Instrument.etf then
      { s with
        bid_price_history_of_etf := s.bid_price_history_of_etf ++ [bid_price_0],
        ask_price_history_of_etf := s.ask_price_history_of_etf ++ [ask_price_0] }
    else s
  if instrument = Instrument.future then
    { s with
      bid_price_history_of_future := s.bid_price_history_of_future ++ [bid_price_0],
      ask_price_history_of_future := s.ask_price_history_of_future ++ [ask_price_0] }
  else s

/-- Lines 170-175: cancel whatever is resting, optimistically zeroing the
slots. -/
def cancel_resting (s : State) : State × List Command :=
  let pa := if s.askId ≠ 0 then ({ s with askId := 0 }, [Command.cancelOrder s.askId])
            else (s, [])
  let pb := if pa.1.bidId ≠ 0 then
              ({ pa.1 with bidId := 0 }, [Command.cancelOrder pa.1.bidId])
            else (pa.1, [])
  (pb.1, pa.2 ++ pb.2)

/-- Lines 181-186: the sell insert, gated on `should_sell` and the one-lot
headroom check of line 178; the price is read back from the recorded ETF ask
history (line 185). -/
def sell_insert (s : State) (midpoint_price_of_etf midpoint_price_of_future multiplier : Int) :
    State × List Command :=
  if midpoint_price_of_etf > midpoint_price_of_future ∧
     s.position > -POSITION_LIMIT + LOT_SIZE then
    let volume := if s.position - LOT_SIZE * multiplier ≥ -100 then LOT_SIZE * multiplier
                  else 100 + s.position
    ({ s with
        askId := s.nextOrderId,
        nextOrderId := s.nextOrderId + 1,
        asks := insert s.nextOrderId s.asks },
     [Command.insertOrder s.nextOrderId Side.ask
        (s.ask_price_history_of_etf.getLastD 0) volume Lifespan.goodForDay])
  else (s, [])

/-- Lines 188-193: the buy insert, gated on `should_buy` and the one-lot
headroom check of line 179; the price is read back from the recorded ETF bid
history (line 192). -/
def buy_insert (s : State) (midpoint_price_of_etf midpoint_price_of_future multiplier : Int) :
    State × List Command :=
  if midpoint_price_of_etf < midpoint_price_of_future ∧
     s.position < POSITION_LIMIT - LOT_SIZE then
    let volume := if s.position + LOT_SIZE * multiplier ≤ 100 then LOT_SIZE * multiplier
                  else 100 - s.position
    ({ s with
        bidId := s.nextOrderId,
        nextOrderId := s.nextOrderId + 1,
        bids := insert s.nextOrderId s.bids },
     [Command.insertOrder s.nextOrderId Side.bid
        (s.bid_price_history_of_etf.getLastD 0) volume Lifespan.goodForDay])
  else (s, [])

/-- Lines 146-193: everything after the synchronization guard.  Lines 156 and
163 compute the inert float signals `in_long_etf_position` and
`in_short_etf_position`; whichever of the two guards on the sign of
`position_orders` holds, the expression
`midpoint_price_of_etf/midpoint_price_of_future` is evaluated, so Python
raises `ZeroDivisionError` exactly when the future midpoint is zero, before
any cancel or insert is issued.  The float values themselves are never used:
`should_sell`/`should_buy` reduce to the midpoint comparisons of lines 155
and 162. -/
def quote_decision (s : State) : StepResult :=
  let midpoint_price_of_etf :=
    (s.bid_price_history_of_etf.getLastD 0 + s.ask_price_history_of_etf.getLastD 0).fdiv 2
  let midpoint_price_of_future :=
    (s.bid_price_history_of_future.getLastD 0 +
      s.ask_price_history_of_future.getLastD 0).fdiv 2
  let multiplier :=
    |midpoint_price_of_etf - midpoint_price_of_future|.fdiv TICK_SIZE_IN_CENTS + 1
  if midpoint_price_of_future = 0 then StepResult.raised s "ZeroDivisionError"
  else
    let pc := cancel_resting s
    let ps := sell_insert pc.1 midpoint_price_of_etf midpoint_price_of_future multiplier
    let pq := buy_insert ps.1 midpoint_price_of_etf midpoint_price_of_future multiplier
    StepResult.ok pq.1 (pc.2 ++ ps.2 ++ pq.2)

/-- `on_order_book_update_message` (lines 115-193): record the snapshot,
return early for the future instrument (line 140) or when unsynchronized
(line 144), otherwise run the quote decision. -/
def on_order_book_update_message (s : State) (instrument : Instrument)
    (ask_price_0 bid_price_0 : Int) : StepResult :=
  let t := update_history s instrument ask_price_0 bid_price_0
  if instrument = Instrument.future then StepResult.ok t []
  else if ¬t.bid_price_history_of_etf.length = t.bid_price_history_of_future.length then
    StepResult.ok t []
  else quote_decision t

/-- Serial delivery of one inbound event. -/
def step (s : State) (e : Event) : StepResult :=
  match e with
  | Event.orderBook instrument a b => on_order_book_update_message s instrument a b
  | Event.orderFilled id p v =>
      let r := on_order_filled_message s id p v
      StepResult.ok r.1 r.2
  | Event.orderStatus id f r fees => StepResult.ok (on_order_status_message s id f r fees) []
  | Event.errorMessage id => StepResult.ok (on_error_message s id) []
  | Event.tradeTicks => StepResult.ok s []
  | Event.hedgeFilled _ _ _ => StepResult.ok s []

/-- Serial handling of a list of inbound events; an uncaught exception stops
the run. -/
def run (s : State) : List Event → StepResult
  | [] => StepResult.ok s []
  | e :: rest =>
      match step s e with
      | StepResult.ok s1 _ => run s1 rest
      | StepResult.raised s1 m => StepResult.raised s1 m

end AC4

/-- Slot sanity: order ids are drawn from the counter, so both slot ids are
below `nextOrderId` (which is positive) and the two slots never hold the same
nonzero id.  Holds in every reachable state of variant 1. -/
def AC3.slotsOK (s : AC3.State) : Prop :=
  0 < s.nextOrderId ∧ s.bidId < s.nextOrderId ∧ s.askId < s.nextOrderId ∧
    (s.bidId = s.askId → s.bidId = 0)

/-- Slot sanity for variant 2 (see `AC3.slotsOK`). -/
def AC4.slotsOK (s : AC4.State) : Prop :=
  0 < s.nextOrderId ∧ s.bidId < s.nextOrderId ∧ s.askId < s.nextOrderId ∧
    (s.bidId = s.askId → s.bidId = 0)

/-- The order/position part of a variant-1 state: every field the handlers may
change other than the price histories. -/
def AC3.orderState (s : AC3.State) : ℕ × Finset ℕ × Finset ℕ × ℕ × ℕ × Int :=
  (s.nextOrderId, s.bids, s.asks, s.askId, s.bidId, s.position)

/-- The order/position part of a variant-2 state. -/
def AC4.orderState (s : AC4.State) : ℕ × Finset ℕ × Finset ℕ × ℕ × ℕ × Int × Int :=
  (s.nextOrderId, s.bids, s.asks, s.askId, s.bidId, s.position, s.position_orders)

/-- An adversarial but env-legal serial trace for variant 1: a strongly
overpriced synchronized tick places a full-size ask (id 1, 100 lots); the next
tick optimistically cancels it and places a replacement (id 2, 100 lots) while
id 1 is still in the ask-set; both asks then fill in full. -/
def c1Events : List Event :=
  [ Event.orderBook Instrument.future 9000 9000,
    Event.orderBook Instrument.etf 10800 10800,
    Event.orderBook Instrument.future 9000 9000,
    Event.orderBook Instrument.etf 10800 10800,
    Event.orderFilled 1 10800 100,
    Event.orderFilled 2 10800 100 ]

/-- A variant-1 state with one resting ask (id 1), reached after an overpriced
synchronized tick and a fresh future snapshot. -/
def c3Events : List Event :=
  [ Event.orderBook Instrument.future 10000 10000,
    Event.orderBook Instrument.etf 10200 10200,
    Event.orderBook Instrument.future 10000 10000 ]

def c3PreState : AC3.State := AC3.run AC3.initialState c3Events

/-- Events bringing either variant to `position = 95` with a resting bid
(id 1): an underpriced tick places a 100-lot bid which then fills 95 lots,
followed by a fresh future snapshot. -/
def c4Events : List Event :=
  [ Event.orderBook Instrument.future 10000 10000,
    Event.orderBook Instrument.etf 9000 9000,
    Event.orderFilled 1 9000 95,
    Event.orderBook Instrument.future 10000 10000 ]

def c4PreState3 : AC3.State := AC3.run AC3.initialState c4Events

def c4PreState4 : AC4.State := (AC4.run AC4.initialState c4Events).state

/-- Variant 2: an underpriced tick places a 100-lot bid (id 1); it partially
fills for 5 lots and the matching partial status event follows. -/
def c5Events : List Event :=
  [ Event.orderBook Instrument.future 10000 10000,
    Event.orderBook Instrument.etf 9000 9000,
    Event.orderFilled 1 9000 5,
    Event.orderStatus 1 5 5 0 ]

/-- Variant 2: an empty future book snapshot (both best prices zero) followed
by a normal ETF snapshot, so the handler reaches the signal computation with a
zero future midpoint. -/
def c6Events : List Event :=
  [ Event.orderBook Instrument.future 0 0,
    Event.orderBook Instrument.etf 10000 10000 ]

/-- A variant-1 state holding one future snapshot, so the next ETF update is
synchronized. -/
def c1WitState : AC3.State :=
  AC3.run AC3.initialState [Event.orderBook Instrument.future 9000 9000]

/-- A variant-2 state with a resting ask (id 5) and histories that
synchronize on the next ETF update. -/
def c3WitState4 : AC4.State :=
  { askId := 5, asks := {5},
    bid_price_history_of_etf := [10000], ask_price_history_of_etf := [10000],
    bid_price_history_of_future := [10000, 10000],
    ask_price_history_of_future := [10000, 10000] }

/-- A variant-1 state at position 85 whose next ETF update is synchronized
and strongly underpriced, forcing the buy volume to clamp to 15. -/
def c4WitState : AC3.State :=
  { position := 85,
    bid_price_history_of_etf := [9000], ask_price_history_of_etf := [9000],
    bid_price_history_of_future := [10000, 10000],
    ask_price_history_of_future := [10000, 10000] }

end ReadyTraderGo

namespace ReadyTraderGo

/-! ### Helper lemmas -/

theorem ac3_update_history_orderState (s : AC3.State) (i : Instrument) (a b : Int) :
    AC3.orderState (AC3.update_history s i a b) = AC3.orderState s := by
  cases i <;> simp [AC3.update_history, AC3.orderState]

theorem ac4_update_history_orderState (s : AC4.State) (i : Instrument) (a b : Int) :
    AC4.orderState (AC4.update_history s i a b) = AC4.orderState s := by
  cases i <;> simp [AC4.update_history, AC4.orderState]

theorem ac3_update_history_etf (s : AC3.State) (a b : Int) :
    AC3.update_history s Instrument.etf a b =
      { s with
        bid_price_history_of_etf := s.bid_price_history_of_etf ++ [b],
        ask_price_history_of_etf := s.ask_price_history_of_etf ++ [a] } := by
  simp [AC3.update_history]

theorem ac3_update_history_future (s : AC3.State) (a b : Int) :
    AC3.update_history s Instrument.future a b =
      { s with
        bid_price_history_of_future := s.bid_price_history_of_future ++ [b],
        ask_price_history_of_future := s.ask_price_history_of_future ++ [a] } := by
  simp [AC3.update_history]

theorem ac4_update_history_etf (s : AC4.State) (a b : Int) :
    AC4.update_history s Instrument.etf a b =
      { s with
        bid_price_history_of_etf := s.bid_price_history_of_etf ++ [b],
        ask_price_history_of_etf := s.ask_price_history_of_etf ++ [a] } := by
  simp [AC4.update_history]

theorem ac4_update_history_future (s : AC4.State) (a b : Int) :
    AC4.update_history s Instrument.future a b =
      { s with
        bid_price_history_of_future := s.bid_price_history_of_future ++ [b],
        ask_price_history_of_future := s.ask_price_history_of_future ++ [a] } := by
  simp [AC4.update_history]

theorem ac3_status_terminal (s : AC3.State) (id : ℕ) (f fees : Int) :
    AC3.on_order_status_message s id f 0 fees =
      { s with
        bidId := if id = s.bidId then 0 else s.bidId,
        askId := if ¬id = s.bidId ∧ id = s.askId then 0 else s.askId,
        bids := s.bids.erase id,
        asks := s.asks.erase id } := by
  simp only [AC3.on_order_status_message, if_pos rfl]
  split_ifs <;> simp_all

theorem ac3_status_nonterminal (s : AC3.State) (id : ℕ) (f r fees : Int) (h : r ≠ 0) :
    AC3.on_order_status_message s id f r fees = s := by
  simp [AC3.on_order_status_message, h]

theorem ac4_status_position_orders (s : AC4.State) (id : ℕ) (f : Int) :
    (if id = s.bidId then { s with position_orders := s.position_orders - f }
     else if id = s.askId then { s with position_orders := s.position_orders + f }
     else s) =
      { s with
        position_orders :=
          if id = s.bidId then s.position_orders - f
          else if id = s.askId then s.position_orders + f
          else s.position_orders } := by
  split_ifs <;> rfl

theorem ac4_status_terminal (s : AC4.State) (id : ℕ) (f fees : Int) :
    AC4.on_order_status_message s id f 0 fees =
      { s with
        position_orders :=
          if id = s.bidId then s.position_orders - f
          else if id = s.askId then s.position_orders + f
          else s.position_orders,
        bidId := if id = s.bidId then 0 else s.bidId,
        askId := if ¬id = s.bidId ∧ id = s.askId then 0 else s.askId,
        bids := s.bids.erase id,
        asks := s.asks.erase id } := by
  simp only [AC4.on_order_status_message, if_pos rfl]
  split_ifs <;> simp_all

theorem ac4_status_nonterminal (s : AC4.State) (id : ℕ) (f r fees : Int) (h : r ≠ 0) :
    AC4.on_order_status_message s id f r fees =
      { s with
        position_orders :=
          if id = s.bidId then s.position_orders - f
          else if id = s.askId then s.position_orders + f
          else s.position_orders } := by
  simp only [AC4.on_order_status_message, if_neg h]
  split_ifs <;> simp_all

/-! ### C1 -/

/-- C1 counterexample: the reachable variant-1 state after `c1Events` has
realized position −200, so `|position| ≤ POSITION_LIMIT` fails on a reachable
state: the optimistically cancelled ask (id 1) stays in the ask-set, its late
fill is still applied, and the replacement ask fills too. -/
theorem c1_position_limit_breach :
    (AC3.run AC3.initialState c1Events).position = -200 ∧
    ¬(|(AC3.run AC3.initialState c1Events).position| ≤ POSITION_LIMIT) := by
  constructor
  · decide
  · decide

/-! ### C6 -/

/-- C6: handling a synchronized ETF order-book update in variant 2 while the
future instrument's latest recorded best bid and ask are both zero raises
`ZeroDivisionError` (lines 156/163 divide by the zero future midpoint), so the
event does not complete without error. -/
theorem c6_zero_future_midpoint_raises :
    (AC4.run AC4.initialState c6Events).isRaised = true ∧
    (AC4.run AC4.initialState c6Events).raisedMsg = "ZeroDivisionError" := by
  exact ⟨rfl, rfl⟩


/-! ### C2 -/

/-- C2: in both variants, a fill for an id in the bid-set raises `position` by
the fill volume and emits exactly one aggressive sell hedge of that volume at
`MIN_BID_NEAREST_TICK`; an id in the ask-set (and not the bid-set) lowers
`position` and emits exactly one aggressive buy hedge at
`MAX_ASK_NEAREST_TICK`; an id in neither set changes nothing and emits
nothing. -/
theorem c2_hedge_law (s3 : AC3.State) (s4 : AC4.State) (id : ℕ) (p v : Int) :
    (id ∈ s3.bids →
      (AC3.on_order_filled_message s3 id p v).1.position = s3.position + v ∧
      (AC3.on_order_filled_message s3 id p v).2 =
        [Command.hedgeOrder s3.nextOrderId Side.ask MIN_BID_NEAREST_TICK v]) ∧
    (id ∉ s3.bids → id ∈ s3.asks →
      (AC3.on_order_filled_message s3 id p v).1.position = s3.position - v ∧
      (AC3.on_order_filled_message s3 id p v).2 =
        [Command.hedgeOrder s3.nextOrderId Side.bid MAX_ASK_NEAREST_TICK v]) ∧
    (id ∉ s3.bids → id ∉ s3.asks → AC3.on_order_filled_message s3 id p v = (s3, [])) ∧
    (id ∈ s4.bids →
      (AC4.on_order_filled_message s4 id p v).1.position = s4.position + v ∧
      (AC4.on_order_filled_message s4 id p v).2 =
        [Command.hedgeOrder s4.nextOrderId Side.ask MIN_BID_NEAREST_TICK v]) ∧
    (id ∉ s4.bids → id ∈ s4.asks →
      (AC4.on_order_filled_message s4 id p v).1.position = s4.position - v ∧
      (AC4.on_order_filled_message s4 id p v).2 =
        [Command.hedgeOrder s4.nextOrderId Side.bid MAX_ASK_NEAREST_TICK v]) ∧
    (id ∉ s4.bids → id ∉ s4.asks → AC4.on_order_filled_message s4 id p v = (s4, [])) := by
  refine ⟨?_, ?_, ?_, ?_, ?_, ?_⟩ <;> intros <;>
    simp_all [AC3.on_order_filled_message, AC4.on_order_filled_message]

/-- Witness for `c2_hedge_law` at a concrete state holding bid id 1. -/
theorem c2_hedge_law_wit :
    (AC3.on_order_filled_message { bids := {1} } 1 5000 7).1.position =
      ({ bids := {1} } : AC3.State).position + 7 ∧
    (AC3.on_order_filled_message { bids := {1} } 1 5000 7).2 =
      [Command.hedgeOrder ({ bids := {1} } : AC3.State).nextOrderId Side.ask
        MIN_BID_NEAREST_TICK 7] :=
  (c2_hedge_law { bids := {1} } AC4.initialState 1 5000 7).1 (by decide)

/-! ### C9 -/

/-- C9: in both variants an error event for a nonzero id held in a side-set is
exactly `on_order_status_message(id, 0, 0, 0)` (which also removes the id from
both side-sets), while an error with id 0 or an untracked id changes no
state. -/
theorem c9_error_equiv_status (s3 : AC3.State) (s4 : AC4.State) (id : ℕ) :
    (id ≠ 0 → id ∈ s3.bids ∨ id ∈ s3.asks →
      AC3.on_error_message s3 id = AC3.on_order_status_message s3 id 0 0 0 ∧
      (AC3.on_error_message s3 id).bids = s3.bids.erase id ∧
      (AC3.on_error_message s3 id).asks = s3.asks.erase id) ∧
    (id = 0 ∨ (id ∉ s3.bids ∧ id ∉ s3.asks) → AC3.on_error_message s3 id = s3) ∧
    (id ≠ 0 → id ∈ s4.bids ∨ id ∈ s4.asks →
      AC4.on_error_message s4 id = AC4.on_order_status_message s4 id 0 0 0 ∧
      (AC4.on_error_message s4 id).bids = s4.bids.erase id ∧
      (AC4.on_error_message s4 id).asks = s4.asks.erase id) ∧
    (id = 0 ∨ (id ∉ s4.bids ∧ id ∉ s4.asks) → AC4.on_error_message s4 id = s4) := by
  refine ⟨?_, ?_, ?_, ?_⟩
  · intro h1 h2
    rw [AC3.on_error_message, if_pos ⟨h1, h2⟩]
    refine ⟨rfl, ?_, ?_⟩ <;>
      · rw [AC3.on_order_status_message]
        simp only [if_pos rfl]
        split_ifs <;> rfl
  · intro h
    rw [AC3.on_error_message, if_neg]
    rcases h with h | ⟨h1, h2⟩
    · simp [h]
    · simp [h1, h2]
  · intro h1 h2
    rw [AC4.on_error_message, if_pos ⟨h1, h2⟩]
    refine ⟨rfl, ?_, ?_⟩ <;>
      · rw [AC4.on_order_status_message]
        simp only [if_pos rfl]
        split_ifs <;> rfl
  · intro h
    rw [AC4.on_error_message, if_neg]
    rcases h with h | ⟨h1, h2⟩
    · simp [h]
    · simp [h1, h2]

/-- Witness for `c9_error_equiv_status`: a working bid id 1 is errored. -/
theorem c9_error_equiv_status_wit :
    AC3.on_error_message { bids := {1}, bidId := 1 } 1 =
      AC3.on_order_status_message { bids := {1}, bidId := 1 } 1 0 0 0 ∧
    (AC3.on_error_message { bids := {1}, bidId := 1 } 1).bids =
      ({ bids := {1}, bidId := 1 } : AC3.State).bids.erase 1 ∧
    (AC3.on_error_message { bids := {1}, bidId := 1 } 1).asks =
      ({ bids := {1}, bidId := 1 } : AC3.State).asks.erase 1 :=
  (c9_error_equiv_status { bids := {1}, bidId := 1 } AC4.initialState 1).1
    (by decide) (by decide)


/-! ### C7 -/

/-- C7: a book update whose append leaves the two ETF/future history lengths
unequal (and, in variant 2, any future-instrument update) emits no command and
changes no order/position state, with no error, in both variants. -/
theorem c7_defer_when_unsynchronized (s3 : AC3.State) (s4 : AC4.State) (a b : Int) :
    (s3.bid_price_history_of_etf.length + 1 ≠ s3.bid_price_history_of_future.length →
      (AC3.on_order_book_update_message s3 Instrument.etf a b).2 = [] ∧
      AC3.orderState (AC3.on_order_book_update_message s3 Instrument.etf a b).1 =
        AC3.orderState s3) ∧
    (s3.bid_price_history_of_etf.length ≠ s3.bid_price_history_of_future.length + 1 →
      (AC3.on_order_book_update_message s3 Instrument.future a b).2 = [] ∧
      AC3.orderState (AC3.on_order_book_update_message s3 Instrument.future a b).1 =
        AC3.orderState s3) ∧
    (s4.bid_price_history_of_etf.length + 1 ≠ s4.bid_price_history_of_future.length →
      (AC4.on_order_book_update_message s4 Instrument.etf a b).cmds = [] ∧
      (AC4.on_order_book_update_message s4 Instrument.etf a b).isRaised = false ∧
      AC4.orderState (AC4.on_order_book_update_message s4 Instrument.etf a b).state =
        AC4.orderState s4) ∧
    ((AC4.on_order_book_update_message s4 Instrument.future a b).cmds = [] ∧
      (AC4.on_order_book_update_message s4 Instrument.future a b).isRaised = false ∧
      AC4.orderState (AC4.on_order_book_update_message s4 Instrument.future a b).state =
        AC4.orderState s4) := by
  refine ⟨fun h => ?_, fun h => ?_, fun h => ?_, ?_⟩
  · simp only [AC3.on_order_book_update_message, ac3_update_history_etf,
      List.length_append, List.length_singleton]
    rw [if_neg h]
    exact ⟨rfl, rfl⟩
  · simp only [AC3.on_order_book_update_message, ac3_update_history_future,
      List.length_append, List.length_singleton]
    rw [if_neg h]
    exact ⟨rfl, rfl⟩
  · simp only [AC4.on_order_book_update_message, ac4_update_history_etf,
      List.length_append, List.length_singleton]
    rw [if_neg (by decide), if_pos h]
    exact ⟨rfl, rfl, rfl⟩
  · simp [AC4.on_order_book_update_message, ac4_update_history_future,
      AC4.StepResult.cmds, AC4.StepResult.isRaised, AC4.StepResult.state, AC4.orderState]

/-- Witness for `c7_defer_when_unsynchronized`: the very first ETF update from
the fresh state (etf history length 1, future history length 0). -/
theorem c7_defer_when_unsynchronized_wit :
    (AC3.on_order_book_update_message AC3.initialState Instrument.etf 10000 10000).2 = [] ∧
    AC3.orderState
        (AC3.on_order_book_update_message AC3.initialState Instrument.etf 10000 10000).1 =
      AC3.orderState AC3.initialState :=
  (c7_defer_when_unsynchronized AC3.initialState AC4.initialState 10000 10000).1 (by decide)

/-! ### The slot invariant holds in every reachable state -/

theorem ac3_update_history_slotsOK (s : AC3.State) (i : Instrument) (a b : Int)
    (h : AC3.slotsOK s) : AC3.slotsOK (AC3.update_history s i a b) := by
  cases i <;> simpa [AC3.update_history, AC3.slotsOK] using h

theorem ac3_sell_branch_slotsOK (s : AC3.State) (i : Instrument) (a me mf m : Int)
    (h : AC3.slotsOK s) : AC3.slotsOK (AC3.sell_branch s i a me mf m).1 := by
  obtain ⟨h1, h2, h3, h4⟩ := h
  simp only [AC3.sell_branch]
  split_ifs <;>
    first
      | exact ⟨h1, h2, h3, h4⟩
      | (dsimp only [AC3.slotsOK]
         refine ⟨by omega, by omega, by omega, fun hEq => by omega⟩)

theorem ac3_buy_branch_slotsOK (s : AC3.State) (i : Instrument) (b me mf m : Int)
    (h : AC3.slotsOK s) : AC3.slotsOK (AC3.buy_branch s i b me mf m).1 := by
  obtain ⟨h1, h2, h3, h4⟩ := h
  simp only [AC3.buy_branch]
  split_ifs <;>
    first
      | exact ⟨h1, h2, h3, h4⟩
      | (dsimp only [AC3.slotsOK]
         refine ⟨by omega, by omega, by omega, fun hEq => by omega⟩)

theorem ac3_filled_slotsOK (s : AC3.State) (id : ℕ) (p v : Int)
    (h : AC3.slotsOK s) : AC3.slotsOK (AC3.on_order_filled_message s id p v).1 := by
  simp only [AC3.on_order_filled_message, AC3.slotsOK] at *
  split_ifs <;> simp_all <;> omega

theorem ac3_status_slotsOK (s : AC3.State) (id : ℕ) (f r fees : Int)
    (h : AC3.slotsOK s) : AC3.slotsOK (AC3.on_order_status_message s id f r fees) := by
  simp only [AC3.on_order_status_message, AC3.slotsOK] at *
  split_ifs <;> simp_all <;> omega

theorem ac3_error_slotsOK (s : AC3.State) (id : ℕ)
    (h : AC3.slotsOK s) : AC3.slotsOK (AC3.on_error_message s id) := by
  simp only [AC3.on_error_message]
  split_ifs
  · exact ac3_status_slotsOK s id 0 0 0 h
  · exact h

theorem ac3_book_slotsOK (s : AC3.State) (i : Instrument) (a b : Int)
    (h : AC3.slotsOK s) :
    AC3.slotsOK (AC3.on_order_book_update_message s i a b).1 := by
  simp only [AC3.on_order_book_update_message]
  split_ifs
  · exact ac3_buy_branch_slotsOK _ _ _ _ _ _
      (ac3_sell_branch_slotsOK _ _ _ _ _ _ (ac3_update_history_slotsOK s i a b h))
  · exact ac3_update_history_slotsOK s i a b h

theorem ac3_step_slotsOK (s : AC3.State) (e : Event)
    (h : AC3.slotsOK s) : AC3.slotsOK (AC3.step s e).1 := by
  cases e with
  | orderBook i a b => exact ac3_book_slotsOK s i a b h
  | orderFilled id p v => exact ac3_filled_slotsOK s id p v h
  | orderStatus id f r fees => exact ac3_status_slotsOK s id f r fees h
  | errorMessage id => exact ac3_error_slotsOK s id h
  | tradeTicks => exact h
  | hedgeFilled id p v => exact h

theorem ac3_run_slotsOK (es : List Event) :
    ∀ s : AC3.State, AC3.slotsOK s → AC3.slotsOK (AC3.run s es) := by
  induction es with
  | nil => exact fun s h => h
  | cons e rest ih =>
      intro s h
      exact ih (AC3.step s e).1 (ac3_step_slotsOK s e h)

/-- Every reachable variant-1 state satisfies the slot invariant. -/
theorem ac3_reachable_slotsOK (es : List Event) :
    AC3.slotsOK (AC3.run AC3.initialState es) :=
  ac3_run_slotsOK es AC3.initialState ⟨Nat.one_pos, Nat.one_pos, Nat.one_pos, fun _ => rfl⟩

theorem ac4_update_history_slotsOK (s : AC4.State) (i : Instrument) (a b : Int)
    (h : AC4.slotsOK s) : AC4.slotsOK (AC4.update_history s i a b) := by
  cases i <;> simpa [AC4.update_history, AC4.slotsOK] using h

theorem ac4_cancel_resting_slotsOK (s : AC4.State)
    (h : AC4.slotsOK s) : AC4.slotsOK (AC4.cancel_resting s).1 := by
  simp only [AC4.cancel_resting, AC4.slotsOK] at *
  split_ifs <;> simp_all <;> omega

theorem ac4_sell_insert_slotsOK (s : AC4.State) (me mf m : Int)
    (h : AC4.slotsOK s) : AC4.slotsOK (AC4.sell_insert s me mf m).1 := by
  simp only [AC4.sell_insert, AC4.slotsOK] at *
  split_ifs <;> simp_all <;> omega

theorem ac4_buy_insert_slotsOK (s : AC4.State) (me mf m : Int)
    (h : AC4.slotsOK s) : AC4.slotsOK (AC4.buy_insert s me mf m).1 := by
  simp only [AC4.buy_insert, AC4.slotsOK] at *
  split_ifs <;> simp_all <;> omega

theorem ac4_quote_slotsOK (s : AC4.State)
    (h : AC4.slotsOK s) : AC4.slotsOK (AC4.quote_decision s).state := by
  simp only [AC4.quote_decision]
  split_ifs
  · exact h
  · exact ac4_buy_insert_slotsOK _ _ _ _
      (ac4_sell_insert_slotsOK _ _ _ _ (ac4_cancel_resting_slotsOK _ h))

theorem ac4_book_slotsOK (s : AC4.State) (i : Instrument) (a b : Int)
    (h : AC4.slotsOK s) :
    AC4.slotsOK (AC4.on_order_book_update_message s i a b).state := by
  simp only [AC4.on_order_book_update_message]
  split_ifs
  · exact ac4_update_history_slotsOK s i a b h
  · exact ac4_quote_slotsOK _ (ac4_update_history_slotsOK s i a b h)
  · exact ac4_update_history_slotsOK s i a b h

theorem ac4_filled_slotsOK (s : AC4.State) (id : ℕ) (p v : Int)
    (h : AC4.slotsOK s) : AC4.slotsOK (AC4.on_order_filled_message s id p v).1 := by
  simp only [AC4.on_order_filled_message, AC4.slotsOK] at *
  split_ifs <;> simp_all <;> omega

theorem ac4_status_slotsOK (s : AC4.State) (id : ℕ) (f r fees : Int)
    (h : AC4.slotsOK s) : AC4.slotsOK (AC4.on_order_status_message s id f r fees) := by
  simp only [AC4.on_order_status_message, AC4.slotsOK] at *
  split_ifs <;> simp_all <;> omega

theorem ac4_error_slotsOK (s : AC4.State) (id : ℕ)
    (h : AC4.slotsOK s) : AC4.slotsOK (AC4.on_error_message s id) := by
  simp only [AC4.on_error_message]
  split_ifs
  · exact ac4_status_slotsOK s id 0 0 0 h
  · exact h

theorem ac4_step_slotsOK (s : AC4.State) (e : Event)
    (h : AC4.slotsOK s) : AC4.slotsOK (AC4.step s e).state := by
  cases e with
  | orderBook i a b => exact ac4_book_slotsOK s i a b h
  | orderFilled id p v => exact ac4_filled_slotsOK s id p v h
  | orderStatus id f r fees => exact ac4_status_slotsOK s id f r fees h
  | errorMessage id => exact ac4_error_slotsOK s id h
  | tradeTicks => exact h
  | hedgeFilled id p v => exact h

theorem ac4_run_slotsOK (es : List Event) :
    ∀ s : AC4.State, AC4.slotsOK s → AC4.slotsOK (AC4.run s es).state := by
  induction es with
  | nil => exact fun s h => h
  | cons e rest ih =>
      intro s h
      have hs := ac4_step_slotsOK s e h
      cases he : AC4.step s e with
      | ok s1 cmds =>
          rw [AC4.run, he]
          exact ih s1 (by rw [he] at hs; exact hs)
      | raised s1 m =>
          rw [AC4.run, he]
          rw [he] at hs
          exact hs

/-- Every reachable variant-2 state (even one reached at the point of an
uncaught exception) satisfies the slot invariant. -/
theorem ac4_reachable_slotsOK (es : List Event) :
    AC4.slotsOK (AC4.run AC4.initialState es).state :=
  ac4_run_slotsOK es AC4.initialState ⟨Nat.one_pos, Nat.one_pos, Nat.one_pos, fun _ => rfl⟩

/-! ### C8 -/

/-- C8: in both variants, a second terminal status (`remaining_volume = 0`)
for the same nonzero order id is a no-op (the slot is already empty and the
side-sets already cleared), and any status event for an id held in neither
side-set and matching neither slot changes nothing at all.  The slot-sanity
hypothesis `slotsOK` holds in every reachable state
(`ac3_reachable_slotsOK`/`ac4_reachable_slotsOK`): the two slots never hold
the same nonzero id. -/
theorem c8_terminal_status_idempotent (s3 : AC3.State) (s4 : AC4.State) (id : ℕ)
    (f fees f2 fees2 r : Int) :
    (id ≠ 0 → AC3.slotsOK s3 →
      AC3.on_order_status_message (AC3.on_order_status_message s3 id f 0 fees) id f2 0 fees2 =
        AC3.on_order_status_message s3 id f 0 fees) ∧
    (id ≠ 0 → AC4.slotsOK s4 →
      AC4.on_order_status_message (AC4.on_order_status_message s4 id f 0 fees) id f2 0 fees2 =
        AC4.on_order_status_message s4 id f 0 fees) ∧
    (id ∉ s3.bids → id ∉ s3.asks → id ≠ s3.bidId → id ≠ s3.askId →
      AC3.on_order_status_message s3 id f r fees = s3) ∧
    (id ∉ s4.bids → id ∉ s4.asks → id ≠ s4.bidId → id ≠ s4.askId →
      AC4.on_order_status_message s4 id f r fees = s4) := by
  refine ⟨fun h0 hok => ?_, fun h0 hok => ?_, fun hb ha hbi hai => ?_, fun hb ha hbi hai => ?_⟩
  · have hne : ¬(s3.bidId = id ∧ s3.askId = id) := by
      rintro ⟨hbq, haq⟩
      exact h0 ((hok.2.2.2 (hbq.trans haq.symm)).symm.trans hbq).symm
    rw [ac3_status_terminal, ac3_status_terminal]
    split_ifs <;> simp_all [Finset.erase_idem]
  · have hne : ¬(s4.bidId = id ∧ s4.askId = id) := by
      rintro ⟨hbq, haq⟩
      exact h0 ((hok.2.2.2 (hbq.trans haq.symm)).symm.trans hbq).symm
    rw [ac4_status_terminal, ac4_status_terminal]
    split_ifs <;> simp_all [Finset.erase_idem]
  · rcases eq_or_ne r 0 with hr | hr
    · subst hr
      rw [ac3_status_terminal]
      simp [hbi, hai, Finset.erase_eq_of_not_mem hb, Finset.erase_eq_of_not_mem ha]
    · exact ac3_status_nonterminal s3 id f r fees hr
  · rcases eq_or_ne r 0 with hr | hr
    · subst hr
      rw [ac4_status_terminal]
      simp [hbi, hai, Finset.erase_eq_of_not_mem hb, Finset.erase_eq_of_not_mem ha]
    · rw [ac4_status_nonterminal s4 id f r fees hr]
      simp [hbi, hai]

/-- Witness for `c8_terminal_status_idempotent`: order id 1 resting as the bid
is cancelled (terminal status) and the status is delivered again. -/
theorem c8_terminal_status_idempotent_wit :
    AC3.on_order_status_message
        (AC3.on_order_status_message { nextOrderId := 2, bids := {1}, bidId := 1 } 1 0 0 0)
        1 0 0 0 =
      AC3.on_order_status_message { nextOrderId := 2, bids := {1}, bidId := 1 } 1 0 0 0 :=
  (c8_terminal_status_idempotent { nextOrderId := 2, bids := {1}, bidId := 1 }
    AC4.initialState 1 0 0 0 0 0).1 (by decide)
    ⟨by decide, by decide, by decide, by decide⟩


/-! ### Lemmas about the variant-1 quoting decision -/

theorem ac3_update_history_position (s : AC3.State) (i : Instrument) (a b : Int) :
    (AC3.update_history s i a b).position = s.position := by
  cases i <;> simp [AC3.update_history]

theorem ac3_update_history_askId (s : AC3.State) (i : Instrument) (a b : Int) :
    (AC3.update_history s i a b).askId = s.askId := by
  cases i <;> simp [AC3.update_history]

theorem ac3_update_history_bidId (s : AC3.State) (i : Instrument) (a b : Int) :
    (AC3.update_history s i a b).bidId = s.bidId := by
  cases i <;> simp [AC3.update_history]

theorem ac3_update_history_nextOrderId (s : AC3.State) (i : Instrument) (a b : Int) :
    (AC3.update_history s i a b).nextOrderId = s.nextOrderId := by
  cases i <;> simp [AC3.update_history]

theorem ac3_sell_volume_eq (p m : Int) :
    AC3.sell_volume p m = if p - LOT_SIZE * m ≥ -100 then LOT_SIZE * m else 100 + p := by
  simp only [AC3.sell_volume, LOT_SIZE]
  split_ifs <;> omega

theorem ac3_sell_volume_bound (p m : Int) :
    p - AC3.sell_volume p m ≥ -POSITION_LIMIT := by
  simp only [AC3.sell_volume, LOT_SIZE, POSITION_LIMIT]
  split_ifs <;> omega

theorem ac3_buy_volume_bound (p m : Int) :
    p + AC3.buy_volume p m ≤ POSITION_LIMIT := by
  simp only [AC3.buy_volume, LOT_SIZE, POSITION_LIMIT]
  split_ifs <;> omega

theorem ac3_buy_volume_clamp (p m : Int) (h : LOT_SIZE * m + p > 100) :
    AC3.buy_volume p m = 100 - p := by
  simp only [AC3.buy_volume]
  rw [if_neg (by omega)]

theorem ac3_sell_branch_insert_inv (s : AC3.State) (i : Instrument)
    (a me mf m : Int) (id : ℕ) (side : Side) (p v : Int) (l : Lifespan)
    (h : Command.insertOrder id side p v l ∈ (AC3.sell_branch s i a me mf m).2) :
    side = Side.ask ∧ p = a ∧ v = AC3.sell_volume s.position m ∧ me > mf ∧
      i = Instrument.etf ∧ id = s.nextOrderId ∧ l = Lifespan.goodForDay := by
  simp only [AC3.sell_branch] at h
  split_ifs at h <;> simp_all

theorem ac3_buy_branch_insert_inv (s : AC3.State) (i : Instrument)
    (b me mf m : Int) (id : ℕ) (side : Side) (p v : Int) (l : Lifespan)
    (h : Command.insertOrder id side p v l ∈ (AC3.buy_branch s i b me mf m).2) :
    side = Side.bid ∧ p = b ∧ v = AC3.buy_volume s.position m ∧ me < mf ∧
      i = Instrument.etf ∧ id = s.nextOrderId ∧ l = Lifespan.goodForDay := by
  simp only [AC3.buy_branch] at h
  split_ifs at h <;> simp_all

theorem ac3_sell_branch_not_gt (s : AC3.State) (i : Instrument) (a me mf m : Int)
    (h : ¬me > mf) : AC3.sell_branch s i a me mf m = (s, []) := by
  simp only [AC3.sell_branch]
  rw [if_neg (by tauto)]

theorem ac3_buy_branch_not_lt (s : AC3.State) (i : Instrument) (b me mf m : Int)
    (h : ¬me < mf) : AC3.buy_branch s i b me mf m = (s, []) := by
  simp only [AC3.buy_branch]
  rw [if_neg (by tauto)]

theorem ac3_sell_branch_position (s : AC3.State) (i : Instrument) (a me mf m : Int) :
    (AC3.sell_branch s i a me mf m).1.position = s.position := by
  simp only [AC3.sell_branch]
  split_ifs <;> rfl

theorem ac3_sell_branch_cancel_mem (s : AC3.State) (i : Instrument) (a me mf m : Int)
    (h : me > mf) (hi : i = Instrument.etf) (ha : s.askId ≠ 0) :
    Command.cancelOrder s.askId ∈ (AC3.sell_branch s i a me mf m).2 := by
  simp only [AC3.sell_branch]
  split_ifs <;> simp_all

theorem ac3_buy_branch_cancel_mem (s : AC3.State) (i : Instrument) (b me mf m : Int)
    (h : me < mf) (hi : i = Instrument.etf) (hb : s.bidId ≠ 0) :
    Command.cancelOrder s.bidId ∈ (AC3.buy_branch s i b me mf m).2 := by
  simp only [AC3.buy_branch]
  split_ifs <;> simp_all

theorem ac3_buy_branch_insert_mem (s : AC3.State) (i : Instrument) (b me mf m : Int)
    (h : me < mf) (hi : i = Instrument.etf) (hp : s.position < POSITION_LIMIT - LOT_SIZE) :
    Command.insertOrder s.nextOrderId Side.bid b (AC3.buy_volume s.position m)
      Lifespan.goodForDay ∈ (AC3.buy_branch s i b me mf m).2 := by
  simp only [AC3.buy_branch]
  split_ifs <;> simp_all

theorem ac3_buy_branch_no_insert (s : AC3.State) (i : Instrument) (b me mf m : Int)
    (hp : ¬s.position < POSITION_LIMIT - LOT_SIZE) (id : ℕ) (side : Side)
    (p v : Int) (l : Lifespan) :
    Command.insertOrder id side p v l ∉ (AC3.buy_branch s i b me mf m).2 := by
  simp only [AC3.buy_branch]
  split_ifs <;> simp_all

theorem ac3_book_etf_sync (s : AC3.State) (a b : Int)
    (hlen : s.bid_price_history_of_etf.length + 1 = s.bid_price_history_of_future.length) :
    AC3.on_order_book_update_message s Instrument.etf a b =
      AC3.quote_decision (AC3.update_history s Instrument.etf a b) Instrument.etf a b := by
  simp only [AC3.on_order_book_update_message, ac3_update_history_etf, List.length_append,
    List.length_singleton]
  rw [if_pos hlen]

/-! ### Lemmas about the variant-2 quoting decision -/

theorem ac4_update_history_position (s : AC4.State) (i : Instrument) (a b : Int) :
    (AC4.update_history s i a b).position = s.position := by
  cases i <;> simp [AC4.update_history]

theorem ac4_cancel_resting_position (s : AC4.State) :
    (AC4.cancel_resting s).1.position = s.position := by
  simp only [AC4.cancel_resting]
  split_ifs <;> rfl

theorem ac4_cancel_resting_nextOrderId (s : AC4.State) :
    (AC4.cancel_resting s).1.nextOrderId = s.nextOrderId := by
  simp only [AC4.cancel_resting]
  split_ifs <;> rfl

theorem ac4_cancel_resting_ask_hist (s : AC4.State) :
    (AC4.cancel_resting s).1.ask_price_history_of_etf = s.ask_price_history_of_etf := by
  simp only [AC4.cancel_resting]
  split_ifs <;> rfl

theorem ac4_cancel_resting_bid_hist (s : AC4.State) :
    (AC4.cancel_resting s).1.bid_price_history_of_etf = s.bid_price_history_of_etf := by
  simp only [AC4.cancel_resting]
  split_ifs <;> rfl

theorem ac4_cancel_resting_no_insert (s : AC4.State) (id : ℕ) (side : Side)
    (p v : Int) (l : Lifespan) :
    Command.insertOrder id side p v l ∉ (AC4.cancel_resting s).2 := by
  simp only [AC4.cancel_resting]
  split_ifs <;> simp

theorem ac4_cancel_resting_ask_mem (s : AC4.State) (ha : s.askId ≠ 0) :
    Command.cancelOrder s.askId ∈ (AC4.cancel_resting s).2 := by
  simp only [AC4.cancel_resting]
  split_ifs <;> simp_all

theorem ac4_cancel_resting_bid_mem (s : AC4.State) (hb : s.bidId ≠ 0) :
    Command.cancelOrder s.bidId ∈ (AC4.cancel_resting s).2 := by
  simp only [AC4.cancel_resting]
  split_ifs <;> simp_all

theorem ac4_sell_insert_inv (s : AC4.State) (me mf m : Int) (id : ℕ) (side : Side)
    (p v : Int) (l : Lifespan)
    (h : Command.insertOrder id side p v l ∈ (AC4.sell_insert s me mf m).2) :
    side = Side.ask ∧ p = s.ask_price_history_of_etf.getLastD 0 ∧
      v = (if s.position - LOT_SIZE * m ≥ -100 then LOT_SIZE * m else 100 + s.position) ∧
      me > mf ∧ s.position > -POSITION_LIMIT + LOT_SIZE ∧ id = s.nextOrderId ∧
      l = Lifespan.goodForDay := by
  simp only [AC4.sell_insert] at h
  split_ifs at h <;> simp_all <;> split_ifs <;> omega

theorem ac4_buy_insert_inv (s : AC4.State) (me mf m : Int) (id : ℕ) (side : Side)
    (p v : Int) (l : Lifespan)
    (h : Command.insertOrder id side p v l ∈ (AC4.buy_insert s me mf m).2) :
    side = Side.bid ∧ p = s.bid_price_history_of_etf.getLastD 0 ∧
      v = (if s.position + LOT_SIZE * m ≤ 100 then LOT_SIZE * m else 100 - s.position) ∧
      me < mf ∧ s.position < POSITION_LIMIT - LOT_SIZE ∧ id = s.nextOrderId ∧
      l = Lifespan.goodForDay := by
  simp only [AC4.buy_insert] at h
  split_ifs at h <;> simp_all <;> split_ifs <;> omega

theorem ac4_sell_insert_not_gt (s : AC4.State) (me mf m : Int) (h : ¬me > mf) :
    AC4.sell_insert s me mf m = (s, []) := by
  simp only [AC4.sell_insert]
  rw [if_neg (by tauto)]

theorem ac4_sell_insert_position (s : AC4.State) (me mf m : Int) :
    (AC4.sell_insert s me mf m).1.position = s.position := by
  simp only [AC4.sell_insert]
  split_ifs <;> rfl

theorem ac4_sell_insert_bid_hist (s : AC4.State) (me mf m : Int) :
    (AC4.sell_insert s me mf m).1.bid_price_history_of_etf =
      s.bid_price_history_of_etf := by
  simp only [AC4.sell_insert]
  split_ifs <;> rfl

theorem ac4_buy_insert_mem (s : AC4.State) (me mf m : Int) (h : me < mf)
    (hp : s.position < POSITION_LIMIT - LOT_SIZE) :
    Command.insertOrder s.nextOrderId Side.bid (s.bid_price_history_of_etf.getLastD 0)
      (if s.position + LOT_SIZE * m ≤ 100 then LOT_SIZE * m else 100 - s.position)
      Lifespan.goodForDay ∈ (AC4.buy_insert s me mf m).2 := by
  simp only [AC4.buy_insert]
  split_ifs <;> simp_all

theorem ac4_buy_insert_no_insert (s : AC4.State) (me mf m : Int)
    (hp : ¬s.position < POSITION_LIMIT - LOT_SIZE) (id : ℕ) (side : Side)
    (p v : Int) (l : Lifespan) :
    Command.insertOrder id side p v l ∉ (AC4.buy_insert s me mf m).2 := by
  simp only [AC4.buy_insert]
  split_ifs <;> simp_all

theorem ac4_quote_decision_eq (s : AC4.State) (me mf m : Int)
    (hme : me = (s.bid_price_history_of_etf.getLastD 0 +
      s.ask_price_history_of_etf.getLastD 0).fdiv 2)
    (hmf : mf = (s.bid_price_history_of_future.getLastD 0 +
      s.ask_price_history_of_future.getLastD 0).fdiv 2)
    (hm : m = |me - mf|.fdiv TICK_SIZE_IN_CENTS + 1)
    (hz : mf ≠ 0) :
    AC4.quote_decision s =
      AC4.StepResult.ok
        (AC4.buy_insert (AC4.sell_insert (AC4.cancel_resting s).1 me mf m).1 me mf m).1
        ((AC4.cancel_resting s).2 ++
          (AC4.sell_insert (AC4.cancel_resting s).1 me mf m).2 ++
          (AC4.buy_insert (AC4.sell_insert (AC4.cancel_resting s).1 me mf m).1 me mf m).2) := by
  subst hme
  subst hmf
  subst hm
  simp only [AC4.quote_decision]
  rw [if_neg hz]

theorem ac4_quote_decision_raised (s : AC4.State)
    (hz : (s.bid_price_history_of_future.getLastD 0 +
      s.ask_price_history_of_future.getLastD 0).fdiv 2 = 0) :
    AC4.quote_decision s = AC4.StepResult.raised s "ZeroDivisionError" := by
  simp only [AC4.quote_decision]
  rw [if_pos hz]

theorem ac4_book_etf_sync (s : AC4.State) (a b : Int)
    (hlen : s.bid_price_history_of_etf.length + 1 = s.bid_price_history_of_future.length) :
    AC4.on_order_book_update_message s Instrument.etf a b =
      AC4.quote_decision (AC4.update_history s Instrument.etf a b) := by
  simp only [AC4.on_order_book_update_message, ac4_update_history_etf, List.length_append,
    List.length_singleton]
  rw [if_neg (by decide), if_neg (not_not_intro hlen)]


theorem ac3_buy_branch_insert_mem_v (s : AC3.State) (i : Instrument) (b me mf m v : Int)
    (h : me < mf) (hi : i = Instrument.etf) (hp : s.position < POSITION_LIMIT - LOT_SIZE)
    (hv : v = AC3.buy_volume s.position m) :
    Command.insertOrder s.nextOrderId Side.bid b v Lifespan.goodForDay ∈
      (AC3.buy_branch s i b me mf m).2 := by
  subst hv
  exact ac3_buy_branch_insert_mem s i b me mf m h hi hp

theorem ac4_buy_insert_mem_v (s : AC4.State) (me mf m v : Int) (h : me < mf)
    (hp : s.position < POSITION_LIMIT - LOT_SIZE)
    (hv : v = if s.position + LOT_SIZE * m ≤ 100 then LOT_SIZE * m else 100 - s.position) :
    Command.insertOrder s.nextOrderId Side.bid (s.bid_price_history_of_etf.getLastD 0)
      v Lifespan.goodForDay ∈ (AC4.buy_insert s me mf m).2 := by
  subst hv
  exact ac4_buy_insert_mem s me mf m h hp

theorem ac4_quote_insert_inv (s : AC4.State) (id : ℕ) (side : Side) (p v : Int)
    (l : Lifespan)
    (h : Command.insertOrder id side p v l ∈ (AC4.quote_decision s).cmds) :
    (side = Side.ask ∧ p = s.ask_price_history_of_etf.getLastD 0 ∧
      ∃ m, v = (if s.position - LOT_SIZE * m ≥ -100 then LOT_SIZE * m
                else 100 + s.position)) ∨
    (side = Side.bid ∧ p = s.bid_price_history_of_etf.getLastD 0 ∧
      ∃ m, v = (if s.position + LOT_SIZE * m ≤ 100 then LOT_SIZE * m
                else 100 - s.position)) := by
  simp only [AC4.quote_decision] at h
  split_ifs at h with hz
  · simp [AC4.StepResult.cmds] at h
  · simp only [AC4.StepResult.cmds, List.mem_append] at h
    rcases h with (h | h) | h
    · exact absurd h (ac4_cancel_resting_no_insert _ _ _ _ _ _)
    · obtain ⟨hs, hp, hv, -⟩ := ac4_sell_insert_inv _ _ _ _ _ _ _ _ _ h
      rw [ac4_cancel_resting_position] at hv
      rw [ac4_cancel_resting_ask_hist] at hp
      exact Or.inl ⟨hs, hp, _, hv⟩
    · obtain ⟨hs, hp, hv, -⟩ := ac4_buy_insert_inv _ _ _ _ _ _ _ _ _ h
      rw [ac4_sell_insert_position, ac4_cancel_resting_position] at hv
      rw [ac4_sell_insert_bid_hist, ac4_cancel_resting_bid_hist] at hp
      exact Or.inr ⟨hs, hp, _, hv⟩

/-! ### C1 (amended) -/

/-- C1 (amended): a late fill of an optimistically-cancelled order can push
`|position|` past the limit (see the counterexample), but the sizing guarantee
holds in both variants: every insert emitted by a book update would, if fully
executed, keep the position taken at decision time within `±POSITION_LIMIT`. -/
theorem c1_insert_sizing (s3 : AC3.State) (s4 : AC4.State) (i : Instrument)
    (a b : Int) (id : ℕ) (side : Side) (p v : Int) (l : Lifespan) :
    (Command.insertOrder id side p v l ∈
        (AC3.on_order_book_update_message s3 i a b).2 →
      (side = Side.ask → s3.position - v ≥ -POSITION_LIMIT) ∧
      (side = Side.bid → s3.position + v ≤ POSITION_LIMIT)) ∧
    (Command.insertOrder id side p v l ∈
        (AC4.on_order_book_update_message s4 i a b).cmds →
      (side = Side.ask → s4.position - v ≥ -POSITION_LIMIT) ∧
      (side = Side.bid → s4.position + v ≤ POSITION_LIMIT)) := by
  constructor
  · intro h
    simp only [AC3.on_order_book_update_message] at h
    split_ifs at h with hc
    · simp only [AC3.quote_decision, List.mem_append] at h
      rcases h with h | h
      · obtain ⟨hs, -, hv, -⟩ := ac3_sell_branch_insert_inv _ _ _ _ _ _ _ _ _ _ _ h
        subst hs
        rw [ac3_update_history_position] at hv
        subst hv
        exact ⟨fun _ => ac3_sell_volume_bound _ _, fun hb => by simp at hb⟩
      · obtain ⟨hs, -, hv, -⟩ := ac3_buy_branch_insert_inv _ _ _ _ _ _ _ _ _ _ _ h
        subst hs
        rw [ac3_sell_branch_position, ac3_update_history_position] at hv
        subst hv
        exact ⟨fun ha => by simp at ha, fun _ => ac3_buy_volume_bound _ _⟩
    · simp at h
  · intro h
    simp only [AC4.on_order_book_update_message] at h
    split_ifs at h with h1 h2
    · simp [AC4.StepResult.cmds] at h
    · rcases ac4_quote_insert_inv _ _ _ _ _ _ h with ⟨hs, -, m, hv⟩ | ⟨hs, -, m, hv⟩
      · subst hs
        rw [ac4_update_history_position] at hv
        subst hv
        refine ⟨fun _ => ?_, fun hb => by simp at hb⟩
        simp only [POSITION_LIMIT, LOT_SIZE]
        split_ifs <;> omega
      · subst hs
        rw [ac4_update_history_position] at hv
        subst hv
        refine ⟨fun ha => by simp at ha, fun _ => ?_⟩
        simp only [POSITION_LIMIT, LOT_SIZE]
        split_ifs <;> omega
    · simp [AC4.StepResult.cmds] at h

/-- Witness for `c1_insert_sizing`: the 100-lot ask placed from `c1WitState`
on an overpriced ETF tick satisfies the sell-side bound. -/
theorem c1_insert_sizing_wit :
    c1WitState.position - 100 ≥ -POSITION_LIMIT :=
  ((c1_insert_sizing c1WitState AC4.initialState Instrument.etf 10800 10800 1 Side.ask
      10800 100 Lifespan.goodForDay).1 (by decide)).1 rfl

/-! ### C3 -/

/-- C3 counterexample: `c3PreState` is a reachable variant-1 state with a
resting ask (id 1); a synchronized ETF update with a buy signal (ETF midpoint
9800 below future midpoint 10000) emits only a new bid insert — no
cancellation of the resting ask, whose slot still holds id 1. -/
theorem c3_resting_ask_not_cancelled :
    c3PreState.askId = 1 ∧
    (AC3.step c3PreState (Event.orderBook Instrument.etf 9800 9800)).2 =
      [Command.insertOrder 2 Side.bid 9800 30 Lifespan.goodForDay] ∧
    (AC3.step c3PreState (Event.orderBook Instrument.etf 9800 9800)).1.askId = 1 := by
  refine ⟨by decide, by decide, by decide⟩


/-- C3 (amended): variant 2 cancels any resting quote unconditionally on a
synchronized ETF update, provided the zero-future-midpoint exception (see C6)
does not fire; variant 1 cancels the resting ask only under a sell signal
(ETF midpoint above future midpoint) and the resting bid only under a buy
signal. -/
theorem c3_cancel_policy (s3 : AC3.State) (s4 : AC4.State) (a b : Int) :
    (s4.bid_price_history_of_etf.length + 1 = s4.bid_price_history_of_future.length →
      (s4.bid_price_history_of_future.getLastD 0 +
        s4.ask_price_history_of_future.getLastD 0).fdiv 2 ≠ 0 →
      (s4.askId ≠ 0 → Command.cancelOrder s4.askId ∈
        (AC4.on_order_book_update_message s4 Instrument.etf a b).cmds) ∧
      (s4.bidId ≠ 0 → Command.cancelOrder s4.bidId ∈
        (AC4.on_order_book_update_message s4 Instrument.etf a b).cmds)) ∧
    (s3.bid_price_history_of_etf.length + 1 = s3.bid_price_history_of_future.length →
      (b + a).fdiv 2 > (s3.bid_price_history_of_future.getLastD 0 +
        s3.ask_price_history_of_future.getLastD 0).fdiv 2 →
      s3.askId ≠ 0 →
      Command.cancelOrder s3.askId ∈
        (AC3.on_order_book_update_message s3 Instrument.etf a b).2) ∧
    (s3.bid_price_history_of_etf.length + 1 = s3.bid_price_history_of_future.length →
      (b + a).fdiv 2 < (s3.bid_price_history_of_future.getLastD 0 +
        s3.ask_price_history_of_future.getLastD 0).fdiv 2 →
      s3.bidId ≠ 0 →
      Command.cancelOrder s3.bidId ∈
        (AC3.on_order_book_update_message s3 Instrument.etf a b).2) := by
  refine ⟨fun hlen hz => ⟨fun hask => ?_, fun hbid => ?_⟩, fun hlen hgt hask => ?_,
    fun hlen hlt hbid => ?_⟩
  · rw [ac4_book_etf_sync s4 a b hlen, ac4_update_history_etf,
      ac4_quote_decision_eq _ _ _ _ rfl rfl rfl (by simpa using hz)]
    exact List.mem_append_left _ (List.mem_append_left _
      (ac4_cancel_resting_ask_mem _ hask))
  · rw [ac4_book_etf_sync s4 a b hlen, ac4_update_history_etf,
      ac4_quote_decision_eq _ _ _ _ rfl rfl rfl (by simpa using hz)]
    exact List.mem_append_left _ (List.mem_append_left _
      (ac4_cancel_resting_bid_mem _ hbid))
  · rw [ac3_book_etf_sync s3 a b hlen, ac3_update_history_etf]
    simp only [AC3.quote_decision, List.getLastD_concat, List.mem_append]
    exact Or.inl (ac3_sell_branch_cancel_mem _ _ _ _ _ _ hgt rfl hask)
  · rw [ac3_book_etf_sync s3 a b hlen, ac3_update_history_etf]
    simp only [AC3.quote_decision, List.getLastD_concat]
    rw [ac3_sell_branch_not_gt _ _ _ _ _ _ (lt_asymm hlt)]
    exact List.mem_append_right _ (ac3_buy_branch_cancel_mem _ _ _ _ _ _ hlt rfl hbid)

/-- Witness for `c3_cancel_policy`: the resting variant-2 ask (id 5) of
`c3WitState4` is cancelled on a synchronized ETF update carrying a buy
signal. -/
theorem c3_cancel_policy_wit :
    Command.cancelOrder c3WitState4.askId ∈
      (AC4.on_order_book_update_message c3WitState4 Instrument.etf 9800 9800).cmds :=
  ((c3_cancel_policy AC3.initialState c3WitState4 9800 9800).1 (by decide)
    (by decide)).1 (by decide)

/-! ### C4 -/

/-- C4 counterexample: both variants reach position 95 with a resting bid
(id 1) via `c4Events`; the next synchronized, underpriced ETF update emits
only the cancellation of the resting bid — no buy order of size 5 (indeed no
insert at all), because the guard `position < POSITION_LIMIT - LOT_SIZE`
(95 < 90) fails. -/
theorem c4_no_order_at_95 :
    c4PreState3.position = 95 ∧
    (AC3.step c4PreState3 (Event.orderBook Instrument.etf 9900 9900)).2 =
      [Command.cancelOrder 1] ∧
    c4PreState4.position = 95 ∧
    (AC4.step c4PreState4 (Event.orderBook Instrument.etf 9900 9900)).cmds =
      [Command.cancelOrder 1] := by
  refine ⟨by decide, by decide, by decide, by decide⟩

/-- C4 (amended): on a synchronized, underpriced ETF update, a buy order is
placed only while `position < POSITION_LIMIT - LOT_SIZE` (so at position 95
nothing is inserted, in either variant); when it is placed and the nominal
size `LOT_SIZE * multiplier` would breach the limit, the volume is clamped to
exactly `100 - position`. -/
theorem c4_buy_sizing (s3 : AC3.State) (s4 : AC4.State) (a b m3 m4 : Int)
    (id : ℕ) (side : Side) (p v : Int) (l : Lifespan) :
    (s3.bid_price_history_of_etf.length + 1 = s3.bid_price_history_of_future.length →
      (b + a).fdiv 2 < (s3.bid_price_history_of_future.getLastD 0 +
        s3.ask_price_history_of_future.getLastD 0).fdiv 2 →
      s3.position ≥ POSITION_LIMIT - LOT_SIZE →
      Command.insertOrder id side p v l ∉
        (AC3.on_order_book_update_message s3 Instrument.etf a b).2) ∧
    (s3.bid_price_history_of_etf.length + 1 = s3.bid_price_history_of_future.length →
      (b + a).fdiv 2 < (s3.bid_price_history_of_future.getLastD 0 +
        s3.ask_price_history_of_future.getLastD 0).fdiv 2 →
      s3.position < POSITION_LIMIT - LOT_SIZE →
      m3 = |(b + a).fdiv 2 - (s3.bid_price_history_of_future.getLastD 0 +
        s3.ask_price_history_of_future.getLastD 0).fdiv 2|.fdiv TICK_SIZE_IN_CENTS + 1 →
      LOT_SIZE * m3 + s3.position > 100 →
      Command.insertOrder s3.nextOrderId Side.bid b (100 - s3.position)
        Lifespan.goodForDay ∈
        (AC3.on_order_book_update_message s3 Instrument.etf a b).2) ∧
    (s4.bid_price_history_of_etf.length + 1 = s4.bid_price_history_of_future.length →
      (s4.bid_price_history_of_future.getLastD 0 +
        s4.ask_price_history_of_future.getLastD 0).fdiv 2 ≠ 0 →
      (b + a).fdiv 2 < (s4.bid_price_history_of_future.getLastD 0 +
        s4.ask_price_history_of_future.getLastD 0).fdiv 2 →
      s4.position ≥ POSITION_LIMIT - LOT_SIZE →
      Command.insertOrder id side p v l ∉
        (AC4.on_order_book_update_message s4 Instrument.etf a b).cmds) ∧
    (s4.bid_price_history_of_etf.length + 1 = s4.bid_price_history_of_future.length →
      (s4.bid_price_history_of_future.getLastD 0 +
        s4.ask_price_history_of_future.getLastD 0).fdiv 2 ≠ 0 →
      (b + a).fdiv 2 < (s4.bid_price_history_of_future.getLastD 0 +
        s4.ask_price_history_of_future.getLastD 0).fdiv 2 →
      s4.position < POSITION_LIMIT - LOT_SIZE →
      m4 = |(b + a).fdiv 2 - (s4.bid_price_history_of_future.getLastD 0 +
        s4.ask_price_history_of_future.getLastD 0).fdiv 2|.fdiv TICK_SIZE_IN_CENTS + 1 →
      LOT_SIZE * m4 + s4.position > 100 →
      Command.insertOrder s4.nextOrderId Side.bid b (100 - s4.position)
        Lifespan.goodForDay ∈
        (AC4.on_order_book_update_message s4 Instrument.etf a b).cmds) := by
  refine ⟨fun hlen hlt hpos => ?_, fun hlen hlt hpos hm3 hcl => ?_,
    fun hlen hz hlt hpos => ?_, fun hlen hz hlt hpos hm4 hcl => ?_⟩
  · rw [ac3_book_etf_sync s3 a b hlen, ac3_update_history_etf]
    simp only [AC3.quote_decision, List.getLastD_concat, List.mem_append]
    intro h
    rcases h with h | h
    · obtain ⟨-, -, -, hgt, -⟩ := ac3_sell_branch_insert_inv _ _ _ _ _ _ _ _ _ _ _ h
      exact absurd hgt (lt_asymm hlt)
    · refine ac3_buy_branch_no_insert _ _ _ _ _ _ ?_ id side p v l h
      rw [ac3_sell_branch_position]
      show ¬s3.position < POSITION_LIMIT - LOT_SIZE
      omega
  · subst hm3
    rw [ac3_book_etf_sync s3 a b hlen, ac3_update_history_etf]
    simp only [AC3.quote_decision, List.getLastD_concat]
    rw [ac3_sell_branch_not_gt _ _ _ _ _ _ (lt_asymm hlt)]
    refine List.mem_append_right _ ?_
    refine ac3_buy_branch_insert_mem_v _ _ _ _ _ _ _ hlt rfl ?_ ?_
    · show s3.position < POSITION_LIMIT - LOT_SIZE
      exact hpos
    · show (100 : Int) - s3.position = AC3.buy_volume s3.position _
      exact (ac3_buy_volume_clamp s3.position _ hcl).symm
  · rw [ac4_book_etf_sync s4 a b hlen, ac4_update_history_etf,
      ac4_quote_decision_eq _ ((b + a).fdiv 2)
        ((s4.bid_price_history_of_future.getLastD 0 +
          s4.ask_price_history_of_future.getLastD 0).fdiv 2) _
        (by simp [List.getLastD_concat]) (by simp) rfl hz]
    intro h
    simp only [AC4.StepResult.cmds, List.mem_append] at h
    rcases h with (h | h) | h
    · exact absurd h (ac4_cancel_resting_no_insert _ _ _ _ _ _)
    · obtain ⟨-, -, -, hgt, -⟩ := ac4_sell_insert_inv _ _ _ _ _ _ _ _ _ h
      exact absurd hgt (lt_asymm hlt)
    · refine ac4_buy_insert_no_insert _ _ _ _ ?_ id side p v l h
      rw [ac4_sell_insert_position, ac4_cancel_resting_position]
      show ¬s4.position < POSITION_LIMIT - LOT_SIZE
      omega
  · subst hm4
    rw [ac4_book_etf_sync s4 a b hlen, ac4_update_history_etf,
      ac4_quote_decision_eq _ ((b + a).fdiv 2)
        ((s4.bid_price_history_of_future.getLastD 0 +
          s4.ask_price_history_of_future.getLastD 0).fdiv 2) _
        (by simp [List.getLastD_concat]) (by simp) rfl hz]
    rw [ac4_sell_insert_not_gt _ _ _ _ (lt_asymm hlt)]
    refine List.mem_append_right _ ?_
    have hmem := ac4_buy_insert_mem_v (AC4.cancel_resting
        { s4 with
          bid_price_history_of_etf := s4.bid_price_history_of_etf ++ [b],
          ask_price_history_of_etf := s4.ask_price_history_of_etf ++ [a] }).1
        ((b + a).fdiv 2)
        ((s4.bid_price_history_of_future.getLastD 0 +
          s4.ask_price_history_of_future.getLastD 0).fdiv 2)
        (|(b + a).fdiv 2 - (s4.bid_price_history_of_future.getLastD 0 +
          s4.ask_price_history_of_future.getLastD 0).fdiv 2|.fdiv TICK_SIZE_IN_CENTS + 1)
        (100 - s4.position) hlt ?_ ?_
    · rw [ac4_cancel_resting_nextOrderId, ac4_cancel_resting_bid_hist] at hmem
      simpa [List.getLastD_concat] using hmem
    · rw [ac4_cancel_resting_position]
      show s4.position < POSITION_LIMIT - LOT_SIZE
      exact hpos
    · rw [ac4_cancel_resting_position]
      show (100 : Int) - s4.position = if s4.position + LOT_SIZE *
          (|(b + a).fdiv 2 - (s4.bid_price_history_of_future.getLastD 0 +
            s4.ask_price_history_of_future.getLastD 0).fdiv 2|.fdiv TICK_SIZE_IN_CENTS + 1)
          ≤ 100 then LOT_SIZE *
          (|(b + a).fdiv 2 - (s4.bid_price_history_of_future.getLastD 0 +
            s4.ask_price_history_of_future.getLastD 0).fdiv 2|.fdiv TICK_SIZE_IN_CENTS + 1)
          else 100 - s4.position
      rw [if_neg (by omega)]

/-- Witness for `c4_buy_sizing`: from `c4WitState` (position 85) an
underpriced synchronized ETF tick with multiplier 11 places a bid clamped to
exactly 15 lots. -/
theorem c4_buy_sizing_wit :
    Command.insertOrder c4WitState.nextOrderId Side.bid 9000 (100 - c4WitState.position)
      Lifespan.goodForDay ∈
      (AC3.on_order_book_update_message c4WitState Instrument.etf 9000 9000).2 :=
  (c4_buy_sizing c4WitState AC4.initialState 9000 9000 11 11 1 Side.bid 0 0
    Lifespan.goodForDay).2.1 (by decide) (by decide) (by decide) (by decide) (by decide)


/-! ### C5 -/

/-- C5 counterexample: in variant 2, after a 100-lot bid (id 1) fills 5 lots
and the matching partial status event `OrderStatus(1, 5, 5, 0)` arrives, the
slot and side-set are unchanged and `position` is 5 as claimed, but
`position_orders` is −10, not the −5 that exactly-once application of the
filled portion would give: `on_order_status_message` re-applies the
cumulative `fill_volume` on top of the fill handler's update. -/
theorem c5_position_orders_double_count :
    (AC4.run AC4.initialState c5Events).state.position = 5 ∧
    (AC4.run AC4.initialState c5Events).state.bidId = 1 ∧
    (AC4.run AC4.initialState c5Events).state.bids = {1} ∧
    (AC4.run AC4.initialState c5Events).state.position_orders = -10 ∧
    ¬(AC4.run AC4.initialState c5Events).state.position_orders = -5 := by
  refine ⟨by decide, by decide, by decide, by decide, by decide⟩

/-- C5 (amended): in variant 2 a fill applies its volume exactly once to
`position` (+v for a tracked bid) and once, inversely, to `position_orders`
(−v); a subsequent partial status event (`remaining_volume ≠ 0`) leaves the
slots, side-sets and `position` unchanged but applies the cumulative
`fill_volume` to `position_orders` again (−f when the id matches the bid
slot), so the filled portion is re-applied there. -/
theorem c5_partial_fill_accounting (s : AC4.State) (id : ℕ) (p v f r fees : Int) :
    (id ∈ s.bids →
      (AC4.on_order_filled_message s id p v).1.position = s.position + v ∧
      (AC4.on_order_filled_message s id p v).1.position_orders =
        s.position_orders - v) ∧
    (r ≠ 0 →
      (AC4.on_order_status_message s id f r fees).bidId = s.bidId ∧
      (AC4.on_order_status_message s id f r fees).askId = s.askId ∧
      (AC4.on_order_status_message s id f r fees).bids = s.bids ∧
      (AC4.on_order_status_message s id f r fees).asks = s.asks ∧
      (AC4.on_order_status_message s id f r fees).position = s.position ∧
      (id = s.bidId →
        (AC4.on_order_status_message s id f r fees).position_orders =
          s.position_orders - f)) := by
  constructor
  · intro h
    simp [AC4.on_order_filled_message, h]
  · intro hr
    rw [ac4_status_nonterminal s id f r fees hr]
    refine ⟨rfl, rfl, rfl, rfl, rfl, fun hb => ?_⟩
    simp [hb]

/-- Witness for `c5_partial_fill_accounting`: a 5-lot fill of tracked bid 1. -/
theorem c5_partial_fill_accounting_wit :
    (AC4.on_order_filled_message { bids := {1}, bidId := 1 } 1 9000 5).1.position =
      ({ bids := {1}, bidId := 1 } : AC4.State).position + 5 ∧
    (AC4.on_order_filled_message { bids := {1}, bidId := 1 } 1 9000 5).1.position_orders =
      ({ bids := {1}, bidId := 1 } : AC4.State).position_orders - 5 :=
  (c5_partial_fill_accounting { bids := {1}, bidId := 1 } 1 9000 5 5 5 0).1 (by decide)

/-! ### C10 -/

/-- C10: on an ETF book update, every insert emitted by variant 2 is priced
at the triggering event's own best ask (sell side) or best bid (buy side) —
the handler appends exactly those prices to the ETF histories before reading
them back — and variant 1 prices its inserts from the same event prices, so
the two price sources coincide on every placement. -/
theorem c10_price_source_coincides (s3 : AC3.State) (s4 : AC4.State) (a b : Int)
    (id : ℕ) (side : Side) (p v : Int) (l : Lifespan) :
    (Command.insertOrder id side p v l ∈
        (AC4.on_order_book_update_message s4 Instrument.etf a b).cmds →
      (side = Side.ask → p = a) ∧ (side = Side.bid → p = b)) ∧
    (Command.insertOrder id side p v l ∈
        (AC3.on_order_book_update_message s3 Instrument.etf a b).2 →
      (side = Side.ask → p = a) ∧ (side = Side.bid → p = b)) := by
  constructor
  · intro h
    simp only [AC4.on_order_book_update_message] at h
    rw [if_neg (by decide)] at h
    split_ifs at h with h2
    · rcases ac4_quote_insert_inv _ _ _ _ _ _ h with ⟨hs, hp, -⟩ | ⟨hs, hp, -⟩
      · subst hs
        simp only [ac4_update_history_etf, List.getLastD_concat] at hp
        exact ⟨fun _ => hp, fun hb => by simp at hb⟩
      · subst hs
        simp only [ac4_update_history_etf, List.getLastD_concat] at hp
        exact ⟨fun ha => by simp at ha, fun _ => hp⟩
    · simp [AC4.StepResult.cmds] at h
  · intro h
    simp only [AC3.on_order_book_update_message] at h
    split_ifs at h with hc
    · simp only [AC3.quote_decision, List.mem_append] at h
      rcases h with h | h
      · obtain ⟨hs, hp, -⟩ := ac3_sell_branch_insert_inv _ _ _ _ _ _ _ _ _ _ _ h
        subst hs
        exact ⟨fun _ => hp, fun hb => by simp at hb⟩
      · obtain ⟨hs, hp, -⟩ := ac3_buy_branch_insert_inv _ _ _ _ _ _ _ _ _ _ _ h
        subst hs
        exact ⟨fun ha => by simp at ha, fun _ => hp⟩
    · simp at h

/-- Witness for `c10_price_source_coincides`: the ask placed from
`c1WitState` on an overpriced tick carries the event's own best ask price
10800. -/
theorem c10_price_source_coincides_wit :
    (Side.ask = Side.ask → (10800 : Int) = 10800) ∧
    (Side.ask = Side.bid → (10800 : Int) = 10800) :=
  (c10_price_source_coincides c1WitState AC4.initialState 10800 10800 1 Side.ask
    10800 100 Lifespan.goodForDay).2 (by decide)

end ReadyTraderGo
